import Mathlib

/-!
# Verification of the fabric_api_mcp slice compiler and data helpers

Shallow embedding of the topology-resolution / slice-compilation engine of
`src/fabric_api_mcp/tools/slices/create.py` and the filter / sort / paginate
utilities of `src/fabric_api_mcp/utils/data_helpers.py`.

Modelling conventions:
* Python dicts are modelled as ordered association lists (`List (String × α)`);
  lookup returns the first binding.  Input specs are modelled with `Option`
  fields, conflating a key that is absent with a key bound to `None`.
* Python raising `ValueError` (or any exception) is modelled with
  `Except String`; the error strings keep the static prefix of the Python
  message (the interpolated parts are dropped).
* Python truthiness (`if x:`) is modelled explicitly: `none` and the empty
  string / empty list / `0` are falsy.
* `random.choice` is modelled by an explicit choice oracle
  `pick : List SiteInfo → SiteInfo` supplied by the caller; a run of the
  program corresponds to a particular oracle.
* machine integers are `Int` (Python ints are unbounded, so no wrap-around
  is needed).
-/

namespace FabricMcp

/-- Association-list lookup, mirroring Python `dict.get` (first binding wins). -/
def alget {α : Type} (l : List (String × α)) (k : String) : Option α :=
  match l with
  | [] => none
  | (k', v) :: rest => if k' = k then some v else alget rest k

deriving instance DecidableEq for Except

/-- `str.lower()`; `String.toLower` itself is compiled by well-founded
recursion and does not reduce definitionally, so the character-list version
is used throughout. -/
def strLower (s : String) : String := String.mk (s.data.map Char.toLower)

/-- `str.upper()` (see `strLower`). -/
def strUpper (s : String) : String := String.mk (s.data.map Char.toUpper)

/-- `field.split(".")`: split on the dot character (Python returns `[""]`
for the empty string, as this does). -/
def splitDotsGo : List Char → List Char → List String
  | [], acc => [String.mk acc.reverse]
  | c :: rest, acc =>
    if c = '.' then String.mk acc.reverse :: splitDotsGo rest []
    else splitDotsGo rest (c :: acc)

/-- `field.split(".")`. -/
def splitDots (s : String) : List String := splitDotsGo s.data []

/-- `VALID_GPU_MODELS` from `create.py`. -/
def VALID_GPU_MODELS : List String := ["GPU_TeslaT4", "GPU_RTX6000", "GPU_A40", "GPU_A30"]

/-- `VALID_NIC_MODELS` from `create.py`. -/
def VALID_NIC_MODELS : List String :=
  ["NIC_Basic", "NIC_ConnectX_5", "NIC_ConnectX_6", "NIC_ConnectX_7_100", "NIC_ConnectX_7_400"]

/-- `VALID_STORAGE_MODELS` from `create.py`. -/
def VALID_STORAGE_MODELS : List String := ["NVME_P4510"]

/-- `VALID_FPGA_MODELS` from `create.py`. -/
def VALID_FPGA_MODELS : List String := ["FPGA_Xilinx_U280", "FPGA_Xilinx_SN1022"]

/-- `VALID_COMPONENT_MODELS` from `create.py`. -/
def VALID_COMPONENT_MODELS : List String :=
  VALID_GPU_MODELS ++ VALID_NIC_MODELS ++ VALID_STORAGE_MODELS ++ VALID_FPGA_MODELS

/-- `VALID_L2_NETWORK_TYPES` from `create.py`. -/
def VALID_L2_NETWORK_TYPES : List String := ["L2PTP", "L2STS", "L2Bridge"]

/-- `VALID_L3_NETWORK_TYPES` from `create.py`. -/
def VALID_L3_NETWORK_TYPES : List String :=
  ["FABNetv4", "FABNetv6", "IPv4", "IPv6", "FABNetv4Ext", "FABNetv6Ext", "IPv4Ext", "IPv6Ext"]

/-- `VALID_NETWORK_TYPES` from `create.py`. -/
def VALID_NETWORK_TYPES : List String := VALID_L2_NETWORK_TYPES ++ VALID_L3_NETWORK_TYPES

/-- `DEFAULT_SMARTNIC` from `create.py`. -/
def DEFAULT_SMARTNIC : String := "NIC_ConnectX_6"

/-- `L3_TYPE_MAP` from `create.py`: the string handed to `add_l3network`. -/
def L3_TYPE_MAP : List (String × String) :=
  [("FABNetv4", "IPv4"), ("FABNetv6", "IPv6"), ("FABNetv4Ext", "IPv4Ext"),
   ("FABNetv6Ext", "IPv6Ext"), ("IPv4", "IPv4"), ("IPv6", "IPv6"),
   ("IPv4Ext", "IPv4Ext"), ("IPv6Ext", "IPv6Ext")]

/-- The FABNet-family types of the per-site fan-out check (`fabnet_types` in
`_build_and_submit_slice`). -/
def fabnetTypes : List String := ["FABNetv4", "FABNetv6", "FABNetv4Ext", "FABNetv6Ext"]

/-- `_determine_network_type` from `create.py`.  `sites` is the set of
endpoint sites (Python `set`); `ero = []` models Python `ero=None` as well as
an empty hop list (both are falsy under `if ero:`). -/
def determineNetworkType (requestedType : Option String) (sites : Finset String)
    (ero : List String) : Except String String :=
  let singleSite := sites.card ≤ 1
  if ero ≠ [] then
    if singleSite then
      .error "ERO (Explicit Route Option) requires a multi-site (2-site) network."
    else
      .ok "L2PTP"
  else
    match requestedType with
    | none => .ok (if singleSite then "L2Bridge" else "FABNetv4")
    | some rt =>
      if strUpper rt = "L2" then
        .ok (if singleSite then "L2Bridge" else "L2STS")
      else if rt = "L2Bridge" then
        if ¬ singleSite then
          .error "L2Bridge networks can only connect nodes on the same site."
        else
          .ok "L2Bridge"
      else if rt = "L2PTP" then
        if singleSite then
          .error "L2PTP requires a multi-site (2-site) network."
        else
          .ok "L2STS"
      else if rt ∈ VALID_NETWORK_TYPES then
        .ok rt
      else
        .error "Unknown network type"

/-- Python truthiness of an optional bandwidth combined with a lower bound:
`bandwidth and bandwidth >= n`. -/
def bwTruthyGe (bandwidth : Option Int) (n : Int) : Bool :=
  match bandwidth with
  | none => false
  | some b => b ≠ 0 && n ≤ b

/-- `_select_nic_for_network` from `create.py`. -/
def selectNicForNetwork (netType : String) (bandwidth : Option Int) : String :=
  if netType = "L2PTP" then
    if bwTruthyGe bandwidth 400 then "NIC_ConnectX_7_400"
    else if bwTruthyGe bandwidth 100 then "NIC_ConnectX_6"
    else if bwTruthyGe bandwidth 25 then "NIC_ConnectX_5"
    else DEFAULT_SMARTNIC
  else
    "NIC_Basic"

/-- The NIC tiering rule as the amended claim C3 states it: tiered by
bandwidth for L2PTP with the default SmartNIC (`NIC_ConnectX_6`) when the
bandwidth is absent, zero, or below 25 Gbps; every other network type uses
`NIC_Basic`. -/
def nicModelAmendedSpec (netType : String) (bandwidth : Option Int) : String :=
  if netType = "L2PTP" then
    match bandwidth with
    | none => "NIC_ConnectX_6"
    | some b =>
      if 400 ≤ b then "NIC_ConnectX_7_400"
      else if 100 ≤ b then "NIC_ConnectX_6"
      else if 25 ≤ b then "NIC_ConnectX_5"
      else "NIC_ConnectX_6"
  else
    "NIC_Basic"

/-!
## Values and the declarative filter engine (`data_helpers.py`)

Records and filter expressions are JSON-shaped Python values; `Value` is
their shallow embedding.  Python dicts are ordered association lists, so
dict equality below is order-sensitive (a documented modelling choice).
-/

/-- A Python/JSON-shaped value. -/
inductive Value where
  | null : Value
  | bool (b : Bool) : Value
  | int (n : Int) : Value
  | str (s : String) : Value
  | list (items : List Value) : Value
  | dict (entries : List (String × Value)) : Value
deriving Repr

/-- A record: a string-keyed Python dict. -/
abbrev Record := List (String × Value)

/-- Python truthiness (`if x:`). -/
def pyTruthy : Value → Bool
  | .null => false
  | .bool b => b
  | .int n => n != 0
  | .str s => s != ""
  | .list l => !l.isEmpty
  | .dict d => !d.isEmpty

mutual

/-- Python `==` on values; `bool` and `int` compare numerically as in Python
(`True == 1`). -/
def valueEq : Value → Value → Bool
  | .null, .null => true
  | .bool a, .bool b => a == b
  | .bool a, .int n => (if a then (1 : Int) else 0) == n
  | .int n, .bool b => n == (if b then (1 : Int) else 0)
  | .int a, .int b => a == b
  | .str a, .str b => a == b
  | .list a, .list b => valueEqList a b
  | .dict a, .dict b => valueEqDict a b
  | _, _ => false

def valueEqList : List Value → List Value → Bool
  | [], [] => true
  | a :: as, b :: bs => valueEq a b && valueEqList as bs
  | _, _ => false

def valueEqDict : List (String × Value) → List (String × Value) → Bool
  | [], [] => true
  | (k, v) :: as, (k', v') :: bs => k == k' && valueEq v v' && valueEqDict as bs
  | _, _ => false

end

mutual

/-- Python `repr()` restricted to the value grammar (string escaping is not
modelled: a string is rendered between single quotes verbatim). -/
def pyRepr : Value → String
  | .null => "None"
  | .bool b => if b then "True" else "False"
  | .int n => toString n
  | .str s => "'" ++ s ++ "'"
  | .list items => "[" ++ pyReprList items ++ "]"
  | .dict entries => "\x7b" ++ pyReprDict entries ++ "\x7d"

def pyReprList : List Value → String
  | [] => ""
  | [v] => pyRepr v
  | v :: rest => pyRepr v ++ ", " ++ pyReprList rest

def pyReprDict : List (String × Value) → String
  | [] => ""
  | [(k, v)] => "'" ++ k ++ "': " ++ pyRepr v
  | (k, v) :: rest => "'" ++ k ++ "': " ++ pyRepr v ++ ", " ++ pyReprDict rest

end

/-- Python `str()` on a value. -/
def pyStr : Value → String
  | .str s => s
  | v => pyRepr v

/-- `needle` is a prefix of `hay` (on character lists). -/
def charsIsPre : List Char → List Char → Bool
  | [], _ => true
  | _ :: _, [] => false
  | a :: as, b :: bs => a == b && charsIsPre as bs

/-- `needle` occurs inside `hay` (on character lists). -/
def charsIsSub (needle : List Char) : List Char → Bool
  | [] => needle.isEmpty
  | c :: rest => charsIsPre needle (c :: rest) || charsIsSub needle rest

/-- Python `needle in hay` for strings (substring test). -/
def strContainsSub (hay needle : String) : Bool :=
  charsIsSub needle.data hay.data

/-- Numeric view of a value: Python treats `bool` as an `int`. -/
def pyNum : Value → Option Int
  | .int n => some n
  | .bool b => some (if b then 1 else 0)
  | _ => none

mutual

/-- Python `a < b`; unorderable combinations raise `TypeError`. -/
def pyLt : Value → Value → Except String Bool
  | a, b =>
    match pyNum a, pyNum b with
    | some x, some y => .ok (decide (x < y))
    | _, _ =>
      match a, b with
      | .str s, .str t => .ok (decide (s < t))
      | .list xs, .list ys => pyLtList xs ys
      | _, _ => .error "TypeError: unorderable types"

/-- Python `<` on lists: lexicographic, comparing elements with `==` first. -/
def pyLtList : List Value → List Value → Except String Bool
  | [], [] => .ok false
  | [], _ :: _ => .ok true
  | _ :: _, [] => .ok false
  | x :: xs, y :: ys => if valueEq x y then pyLtList xs ys else pyLt x y

end

mutual

/-- Python `a <= b`; unorderable combinations raise `TypeError`. -/
def pyLe : Value → Value → Except String Bool
  | a, b =>
    match pyNum a, pyNum b with
    | some x, some y => .ok (decide (x ≤ y))
    | _, _ =>
      match a, b with
      | .str s, .str t => .ok (decide (s ≤ t))
      | .list xs, .list ys => pyLeList xs ys
      | _, _ => .error "TypeError: unorderable types"

/-- Python `<=` on lists. -/
def pyLeList : List Value → List Value → Except String Bool
  | [], _ => .ok true
  | _ :: _, [] => .ok false
  | x :: xs, y :: ys => if valueEq x y then pyLeList xs ys else pyLt x y

end

/-- Python `value in operand` (the `in` filter operator). -/
def pyIn (value operand : Value) : Except String Bool :=
  match operand with
  | .list items => .ok (items.any (valueEq value))
  | .str s =>
    match value with
    | .str sub => .ok (strContainsSub s sub)
    | _ => .error "TypeError: in requires string as left operand"
  | .dict entries => .ok (entries.any (fun kv => valueEq value (.str kv.1)))
  | _ => .error "TypeError: argument is not iterable"

/-- The polymorphic `contains` operator of `_match_operator`. -/
def pyContains (value operand : Value) : Except String Bool :=
  match value with
  | .str s =>
    match operand with
    | .str sub => .ok (strContainsSub s sub)
    | _ => .error "TypeError: in requires string as left operand"
  | .dict entries =>
    match operand with
    | .str sub => .ok (entries.any (fun kv => strContainsSub kv.1 sub))
    | _ => .error "TypeError: in requires string as left operand"
  | .list items =>
    match operand with
    | .str sub => .ok (items.any (fun v => strContainsSub (pyStr v) sub))
    | _ => .error "TypeError: in requires string as left operand"
  | _ => .ok false

/-- The `icontains` operator: `operand.lower()` first (raising on a
non-string operand), then a case-folded `contains`. -/
def pyIContains (value operand : Value) : Except String Bool :=
  match operand with
  | .str srch =>
    let ls := strLower srch
    match value with
    | .str s => .ok (strContainsSub (strLower s) ls)
    | .dict entries => .ok (entries.any (fun kv => strContainsSub (strLower kv.1) ls))
    | .list items => .ok (items.any (fun v => strContainsSub (strLower (pyStr v)) ls))
    | _ => .ok false
  | _ => .error "AttributeError: lower"

/-- `_resolve_field`'s walk over the dot-separated path segments. -/
def resolveFieldGo : Value → List String → Value
  | v, [] => v
  | v, p :: ps =>
    match v with
    | .dict entries => resolveFieldGo ((alget entries p).getD .null) ps
    | _ => .null

/-- `_resolve_field` from `data_helpers.py`. -/
def resolveField (record : Record) (field : String) : Value :=
  resolveFieldGo (.dict record) (splitDots field)

/-- The oracle standing for `re.search` (an external library call):
`rs pattern text` is `bool(re.search(pattern, text))`, or an error for an
invalid pattern. -/
abbrev RegexOracle := String → String → Except String Bool

mutual

/-- Weight of a value, used as the termination measure of the filter engine
(dict/list constructors weigh 1, entries are free, atoms weigh 1). -/
def wV : Value → Nat
  | .null => 1
  | .bool _ => 1
  | .int _ => 1
  | .str _ => 1
  | .list items => 1 + wL items
  | .dict entries => 1 + wD entries

def wL : List Value → Nat
  | [] => 0
  | v :: rest => wV v + wL rest

def wD : List (String × Value) → Nat
  | [] => 0
  | (_, v) :: rest => wV v + wD rest

end

theorem wV_pos (v : Value) : 1 ≤ wV v := by
  cases v <;> simp [wV]

/-- The non-recursive operators of `_match_operator` (everything except
`any`/`all`, which recurse into the filter evaluation and therefore live in
the mutual block below); the if-chain keeps the source's order. -/
def matchOperatorBase (rs : RegexOracle) (value : Value) (op : String)
    (operand : Value) : Except String Bool :=
  if op = "eq" then .ok (valueEq value operand)
  else if op = "ne" then .ok (!valueEq value operand)
  else if op = "lt" then
    match value with
    | .null => .ok false
    | _ => pyLt value operand
  else if op = "lte" then
    match value with
    | .null => .ok false
    | _ => pyLe value operand
  else if op = "gt" then
    match value with
    | .null => .ok false
    | _ => pyLt operand value
  else if op = "gte" then
    match value with
    | .null => .ok false
    | _ => pyLe operand value
  else if op = "in" then pyIn value operand
  else if op = "contains" then pyContains value operand
  else if op = "icontains" then pyIContains value operand
  else if op = "regex" then
    match value with
    | .str s =>
      match operand with
      | .str pat => rs pat s
      | _ => .error "TypeError: first argument must be string or compiled pattern"
    | _ => .ok false
  else .error "Unknown filter operator"

mutual

/-- `_match_record_filters` from `data_helpers.py`: conjunction over the
clauses of the filter dict, with the `"or"` key special-cased (a non-list or
empty `"or"` value is skipped). -/
def matchRecordFilters (rs : RegexOracle) (record : Record)
    (fs : List (String × Value)) : Except String Bool :=
  match fs with
  | [] => .ok true
  | (key, spec) :: rest =>
    if key = "or" then
      match spec with
      | .list [] => matchRecordFilters rs record rest
      | .list (sub :: subs) =>
        match matchOrList rs record (sub :: subs) with
        | .error e => .error e
        | .ok b => if b then matchRecordFilters rs record rest else .ok false
      | _ => matchRecordFilters rs record rest
    else
      match spec with
      | .dict ops =>
        match matchOps rs (resolveField record key) ops with
        | .error e => .error e
        | .ok b => if b then matchRecordFilters rs record rest else .ok false
      | _ =>
        if valueEq (resolveField record key) spec then
          matchRecordFilters rs record rest
        else
          .ok false
termination_by (wD fs, 0, 0)
decreasing_by
  · apply Prod.Lex.left
    simp only [wD, wV, wL]
    omega
  · apply Prod.Lex.left
    simp only [wD, wV, wL]
    omega
  · apply Prod.Lex.left
    simp only [wD, wV, wL]
    omega
  · apply Prod.Lex.left
    simp only [wD]
    exact Nat.lt_of_lt_of_le (by omega) (Nat.add_le_add_right (wV_pos _) _)
  · apply Prod.Lex.left
    simp only [wD, wV]
    omega
  · apply Prod.Lex.left
    simp only [wD, wV]
    omega
  · apply Prod.Lex.left
    simp only [wD]
    exact Nat.lt_of_lt_of_le (by omega) (Nat.add_le_add_right (wV_pos _) _)

/-- The `any(_match_record_filters(record, sub) for sub in spec)` disjunction
of the `"or"` clause (short-circuiting, propagating errors). -/
def matchOrList (rs : RegexOracle) (record : Record)
    (subs : List Value) : Except String Bool :=
  match subs with
  | [] => .ok false
  | .dict kvs :: more =>
    match matchRecordFilters rs record kvs with
    | .error e => .error e
    | .ok b => if b then .ok true else matchOrList rs record more
  | _ :: _ => .error "AttributeError: sub-filter is not a dict"
termination_by (wL subs, 3, 0)
decreasing_by
  · apply Prod.Lex.left
    simp only [wL, wV]
    omega
  · apply Prod.Lex.left
    simp only [wL]
    exact Nat.lt_of_lt_of_le (by omega) (Nat.add_le_add_right (wV_pos _) _)

/-- The implicit AND over the operators given on one field. -/
def matchOps (rs : RegexOracle) (fieldVal : Value)
    (ops : List (String × Value)) : Except String Bool :=
  match ops with
  | [] => .ok true
  | (op, operand) :: more =>
    match matchOperator rs fieldVal op operand with
    | .error e => .error e
    | .ok b => if b then matchOps rs fieldVal more else .ok false
termination_by (wD ops, 3, 0)
decreasing_by
  · simp only [wD]
    rcases Nat.eq_zero_or_pos (wD rest) with h0 | hpos
    · rw [h0, Nat.add_zero]
      exact Prod.Lex.right _ (Prod.Lex.left _ _ (by omega))
    · exact Prod.Lex.left _ _ (by omega)
  · apply Prod.Lex.left
    simp only [wD]
    exact Nat.lt_of_lt_of_le (by omega) (Nat.add_le_add_right (wV_pos _) _)

/-- `_match_operator` from `data_helpers.py`: the recursive `any`/`all`
operators, every other operator delegated to `matchOperatorBase` (same
result, since the source's if-chain tests the operator name against
distinct literals). -/
def matchOperator (rs : RegexOracle) (value : Value) (op : String)
    (operand : Value) : Except String Bool :=
  if op = "any" then
    match value with
    | .list items => elemsAny rs operand items
    | _ => .ok false
  else if op = "all" then
    match value with
    | .list items => elemsAll rs operand items
    | _ => .ok false
  else matchOperatorBase rs value op operand
termination_by (wV operand, 2, 0)
decreasing_by
  · exact Prod.Lex.right _ (Prod.Lex.left _ _ (by omega))
  · exact Prod.Lex.right _ (Prod.Lex.left _ _ (by omega))

/-- The recursion of the `any` operator: each element, wrapped as the
synthetic record `{"_v": v}`, is matched against `{"_v": operand}`. -/
def elemsAny (rs : RegexOracle) (operand : Value)
    (vs : List Value) : Except String Bool :=
  match vs with
  | [] => .ok false
  | v :: rest =>
    match matchRecordFilters rs [("_v", v)] [("_v", operand)] with
    | .error e => .error e
    | .ok b => if b then .ok true else elemsAny rs operand rest
termination_by (wV operand, 1, vs.length)
decreasing_by
  · simp only [wD, Nat.add_zero]
    exact Prod.Lex.right _ (Prod.Lex.left _ _ (by omega))
  · apply Prod.Lex.right
    apply Prod.Lex.right
    simp only [List.length_cons]
    omega

/-- The recursion of the `all` operator. -/
def elemsAll (rs : RegexOracle) (operand : Value)
    (vs : List Value) : Except String Bool :=
  match vs with
  | [] => .ok true
  | v :: rest =>
    match matchRecordFilters rs [("_v", v)] [("_v", operand)] with
    | .error e => .error e
    | .ok b => if b then elemsAll rs operand rest else .ok false
termination_by (wV operand, 1, vs.length)
decreasing_by
  · simp only [wD, Nat.add_zero]
    exact Prod.Lex.right _ (Prod.Lex.left _ _ (by omega))
  · apply Prod.Lex.right
    apply Prod.Lex.right
    simp only [List.length_cons]
    omega

end

/-- `apply_filters` from `data_helpers.py` (falsy `filters` is a no-op). -/
def applyFilters (rs : RegexOracle) (items : List Record)
    (filters : Option Record) : Except String (List Record) :=
  match filters with
  | none => .ok items
  | some fs =>
    if fs.isEmpty then .ok items
    else items.filterM (fun r => matchRecordFilters rs r fs)

/-!
## Sorting and pagination (`data_helpers.py`)
-/

/-- Rank used to totalize comparisons between values of different shapes
(Python raises `TypeError` there; the claims under study never compare
mixed shapes, see `applySort`). -/
def vrank : Value → Nat
  | .null => 0
  | .bool _ => 1
  | .int _ => 1
  | .str _ => 2
  | .list _ => 3
  | .dict _ => 4

mutual

/-- Totalized Python `<` on values: numeric/string/list comparisons follow
Python; shape-mixed comparisons (a `TypeError` in Python) are ordered by
`vrank`, and dicts are never less than each other. -/
def valTLt : Value → Value → Bool
  | a, b =>
    match pyNum a, pyNum b with
    | some x, some y => decide (x < y)
    | _, _ =>
      match a, b with
      | .str s, .str t => decide (s < t)
      | .list xs, .list ys => valTLtList xs ys
      | _, _ => decide (vrank a < vrank b)

def valTLtList : List Value → List Value → Bool
  | [], [] => false
  | [], _ :: _ => true
  | _ :: _, [] => false
  | x :: xs, y :: ys => if valueEq x y then valTLtList xs ys else valTLt x y

end

/-- The sort key of `apply_sort`: `(r.get(field) is None, r.get(field))`.
A key bound to Python `None` and a missing key both give `none`. -/
def sortKeyVal (r : Record) (field : Value) : Option Value :=
  match field with
  | .str f =>
    match alget r f with
    | some .null => none
    | some v => some v
    | none => none
  | _ => none

/-- Python `<` on the `(is-none, value)` key tuples (first differing
element decides; equality steps use Python `==`). -/
def keyLt : Bool × Option Value → Bool × Option Value → Bool
  | (f1, v1), (f2, v2) =>
    if f1 ≠ f2 then decide (f1 < f2)
    else
      match v1, v2 with
      | some a, some b => if valueEq a b then false else valTLt a b
      | _, _ => false

/-- Stable insertion into a sorted list: `x` goes before the first `y`
with `le x y`. -/
def insertBy {α : Type} (le : α → α → Bool) (x : α) : List α → List α
  | [] => [x]
  | y :: ys => if le x y then x :: y :: ys else y :: insertBy le x ys

/-- Stable sort (insertion sort).  For a total preorder `le` this computes
the same list as Python's stable `sorted`. -/
def sortBy {α : Type} (le : α → α → Bool) : List α → List α
  | [] => []
  | x :: xs => insertBy le x (sortBy le xs)

/-- `apply_sort` from `data_helpers.py`.  `sorted(..., reverse=True)` is a
stable sort under the reversed strict comparison, hence the flipped
`keyLt` arguments in the `desc` branch.  A non-string `direction` raises
`AttributeError` in Python; it is modelled as not equal to `"desc"`. -/
def applySort (items : List Record) (sort : Option Record) : List Record :=
  match sort with
  | none => items
  | some s =>
    if s.isEmpty then items
    else
      let field := (alget s "field").getD .null
      if ¬ pyTruthy field then items
      else
        let dirv := (alget s "direction").getD .null
        let dirStr :=
          match (if pyTruthy dirv then dirv else .str "asc") with
          | .str d => strLower d
          | _ => ""
        let key := fun r => ((sortKeyVal r field).isNone, sortKeyVal r field)
        if dirStr = "desc" then
          sortBy (fun a b => !keyLt (key a) (key b)) items
        else
          sortBy (fun a b => !keyLt (key b) (key a)) items

/-- The result dict of `paginate`. -/
structure PageResult (α : Type) where
  items : List α
  total : Nat
  count : Nat
  offset : Nat
  has_more : Bool
deriving Repr, DecidableEq

/-- `paginate` from `data_helpers.py`. -/
def paginate {α : Type} (items : List α) (limit : Option Int) (offset : Int) :
    PageResult α :=
  let total := items.length
  let start := (max 0 offset).toNat
  let sliced :=
    match limit with
    | none => items.drop start
    | some l => (items.drop start).take (max 0 l).toNat
  { items := sliced, total := total, count := sliced.length, offset := start,
    has_more := decide (start + sliced.length < total) }

/-- The count formula exactly as claim C5 states it:
`min(limit or len(items), max(0, len(items)-offset))`, with Python
truthiness for `limit or ...` (a limit of `0` is falsy) and the raw
offset. -/
def paginateClaimCount (total : Nat) (limit : Option Int) (offset : Int) : Int :=
  min
    (match limit with
     | none => (total : Int)
     | some l => if l = 0 then (total : Int) else l)
    (max 0 ((total : Int) - offset))

/-!
## Site auto-selection (`_select_site_for_node`, `_build_and_submit_slice`)

`random.choice` is replaced by an explicit oracle `pick`; a run of the
program corresponds to one oracle.  The code only calls `pick` on the
non-empty candidate lists it computed.
-/

/-- One record of `_get_available_sites` (missing capacity keys default
to 0 via `s.get(..., 0)`). -/
structure SiteInfo where
  name : String
  cores_available : Int := 0
  ram_available : Int := 0
  disk_available : Int := 0
deriving Repr, DecidableEq

/-- `_select_site_for_node` from `create.py`. -/
def selectSiteForNode (availableSites : List SiteInfo) (cores ram disk : Int)
    (usedSites : List String) (pick : List SiteInfo → SiteInfo) :
    Except String String :=
  let suitable := availableSites.filter (fun s =>
    decide (cores ≤ s.cores_available) && decide (ram ≤ s.ram_available)
      && decide (disk ≤ s.disk_available))
  if suitable.isEmpty then
    .error "No sites available with sufficient resources"
  else
    let unused := suitable.filter (fun s => !(usedSites.contains s.name))
    if !unused.isEmpty then .ok (pick unused).name else .ok (pick suitable).name

/-- Python truthiness of an optional string (`None` and `""` are falsy). -/
def strTruthy : Option String → Bool
  | none => false
  | some s => s != ""

/-- A node specification (the fields of `node_spec` used for placement). -/
structure NodeSpec where
  name : String
  site : Option String := none
  cores : Option Int := none
  ram : Option Int := none
  disk : Option Int := none
deriving Repr, DecidableEq

/-- The node-placement loop of `_build_and_submit_slice` (lines 448-461):
per node, take the explicit site when truthy, else auto-select against the
prefetched capacity snapshot; every placed site is appended to
`used_sites`. -/
def assignSitesGo (availableSites : List SiteInfo)
    (pick : List SiteInfo → SiteInfo) :
    List NodeSpec → List String → Except String (List (String × String))
  | [], _ => .ok []
  | n :: rest, used =>
    let cores := n.cores.getD 2
    let ram := n.ram.getD 8
    let disk := n.disk.getD 10
    let siteRes : Except String String :=
      if strTruthy n.site then .ok (n.site.getD "")
      else selectSiteForNode availableSites cores ram disk used pick
    match siteRes with
    | .error e => .error e
    | .ok site =>
      match assignSitesGo availableSites pick rest (used ++ [site]) with
      | .error e => .error e
      | .ok tail => .ok ((n.name, site) :: tail)

/-- Site assignment for a whole node list (fresh `used_sites`). -/
def assignSites (availableSites : List SiteInfo)
    (pick : List SiteInfo → SiteInfo) (nodes : List NodeSpec) :
    Except String (List (String × String)) :=
  assignSitesGo availableSites pick nodes []

/-!
## Interface resolution (`_get_or_create_interface`, `_resolve_interface`)
-/

/-- `SMARTNIC_MODELS` from `create.py`. -/
def SMARTNIC_MODELS : List String :=
  ["NIC_ConnectX_5", "NIC_ConnectX_6", "NIC_ConnectX_7_100", "NIC_ConnectX_7_400"]

/-- A component handle (`node.add_component` / `node.get_component` result);
`id` is a fresh identity so distinct creations are distinguishable. -/
structure NicComp where
  id : Nat
  model : String
deriving Repr, DecidableEq

/-- Number of interfaces `component.get_interfaces()` returns, by model.
These counts come from the backend library; the source documents them in
the `_get_or_create_interface` error message ("SmartNICs like
NIC_ConnectX_5/6/7 have 2 ports (0 and 1)"). -/
def compPortCount (model : String) : Nat :=
  if model = "NIC_Basic" then 1
  else if model ∈ SMARTNIC_MODELS then 2
  else if model ∈ VALID_FPGA_MODELS then 2
  else 0

/-- A node in `node_map`: its resolved site and the components retrievable
via `node.get_component` (those declared in the node's `components` list). -/
structure NodeInfo where
  name : String
  site : String
  existing : List (String × NicComp) := []
deriving Repr, DecidableEq

/-- A P4 switch in `switches_map`. -/
structure SwitchInfo where
  site : String
  numPorts : Nat := 0
deriving Repr, DecidableEq

/-- A facility port in `facility_ports_map`. -/
structure FpInfo where
  site : String
deriving Repr, DecidableEq

/-- The registries built by the compile pass before networks are processed. -/
structure Env where
  nodes : List (String × NodeInfo) := []
  switches : List (String × SwitchInfo) := []
  facilityPorts : List (String × FpInfo) := []
deriving Repr, DecidableEq

/-- The per-pass allocation state: `node_nics` plus a counter producing
fresh component identities for `node.add_component`. -/
structure AllocState where
  nodeNics : List (String × List (String × NicComp)) := []
  nextId : Nat := 0
deriving Repr, DecidableEq

/-- `node_nics.get(node_name, {})`. -/
def nicsOf (st : AllocState) (node : String) : List (String × NicComp) :=
  (alget st.nodeNics node).getD []

/-- `node_nics[node_name][nic_name] = nic`. -/
def upsertNic :
    List (String × List (String × NicComp)) → String → String → NicComp →
    List (String × List (String × NicComp))
  | [], node, nm, c => [(node, [(nm, c)])]
  | (n, nics) :: rest, node, nm, c =>
    if n = node then (n, nics ++ [(nm, c)]) :: rest
    else (n, nics) :: upsertNic rest node nm c

/-- Registration of a created NIC in the allocation state. -/
def registerNic (st : AllocState) (node nm : String) (c : NicComp) : AllocState :=
  { st with nodeNics := upsertNic st.nodeNics node nm c }

/-- An interface specification (`iface_spec` dict); an absent key and a key
bound to `None` are both modelled as `none`. -/
structure IfaceSpec where
  node : Option String := none
  switch : Option String := none
  facility_port : Option String := none
  component : Option String := none
  nic : Option String := none
  nic_name : Option String := none
  port : Option Nat := none
  vlan : Option Nat := none
  nic_model : Option String := none
  model : Option String := none
  sub_name : Option String := none
deriving Repr, DecidableEq

/-- A resolved interface handle. -/
inductive Iface where
  | comp (c : NicComp) (port : Nat)
  | sub (c : NicComp) (port : Nat) (subName : String) (vlan : Nat)
  | switchPort (name : String) (port : Nat)
  | facility (name : String)
deriving Repr, DecidableEq

/-- Python truthiness of an optional VLAN (`0` is falsy). -/
def vlanTruthy : Option Nat → Bool
  | none => false
  | some v => v != 0

/-- `_get_or_create_interface` from `create.py`. -/
def getOrCreateInterface (node : NodeInfo) (st : AllocState) (spec : IfaceSpec)
    (netName defaultModel : String) : Except String (Iface × AllocState) :=
  let port := spec.port.getD 0
  let nicNameOpt := if strTruthy spec.nic then spec.nic else spec.nic_name
  let nicModel :=
    if strTruthy spec.nic_model then spec.nic_model.getD ""
    else if strTruthy spec.model then spec.model.getD ""
    else defaultModel
  if strTruthy spec.component then
    let cname := spec.component.getD ""
    let compRes : Except String NicComp :=
      match alget node.existing cname with
      | some comp => .ok comp
      | none =>
        match alget (nicsOf st node.name) cname with
        | some comp => .ok comp
        | none => .error "Component not found on node"
    match compRes with
    | .error e => .error e
    | .ok comp =>
      if compPortCount comp.model ≤ port then
        .error "Port not available on component"
      else if vlanTruthy spec.vlan then
        let v := spec.vlan.getD 0
        let subName := spec.sub_name.getD
          (cname ++ "-p" ++ toString port ++ "-vlan" ++ toString v)
        .ok (.sub comp port subName v, st)
      else
        .ok (.comp comp port, st)
  else
    let created : String × NicComp × AllocState :=
      if strTruthy nicNameOpt then
        let nm := nicNameOpt.getD ""
        match alget (nicsOf st node.name) nm with
        | some nic => (nm, nic, st)
        | none =>
          match alget node.existing nm with
          | some nic => (nm, nic, st)
          | none =>
            let nic : NicComp := { id := st.nextId, model := nicModel }
            (nm, nic,
             { registerNic st node.name nm nic with nextId := st.nextId + 1 })
      else
        let nm := node.name ++ "-" ++ netName ++ "-nic"
        let nic : NicComp := { id := st.nextId, model := nicModel }
        (nm, nic,
         { registerNic st node.name nm nic with nextId := st.nextId + 1 })
    match created with
    | (nm, nic, st') =>
      if compPortCount nic.model ≤ port then
        .error "Port not available on NIC"
      else if vlanTruthy spec.vlan then
        let v := spec.vlan.getD 0
        let subName := spec.sub_name.getD
          (nm ++ "-p" ++ toString port ++ "-vlan" ++ toString v)
        .ok (.sub nic port subName v, st')
      else
        .ok (.comp nic port, st')

/-- `_resolve_interface` from `create.py` (dispatch: switch, then facility
port, then node). -/
def resolveInterface (env : Env) (st : AllocState) (spec : IfaceSpec)
    (netName defaultModel : String) : Except String (Iface × AllocState) :=
  match spec.switch with
  | some swName =>
    match alget env.switches swName with
    | none => .error "references unknown switch"
    | some sw =>
      let port := spec.port.getD 0
      if sw.numPorts ≤ port then .error "Port not available on switch"
      else .ok (.switchPort swName port, st)
  | none =>
    match spec.facility_port with
    | some fpName =>
      match alget env.facilityPorts fpName with
      | none => .error "references unknown facility port"
      | some _ => .ok (.facility fpName, st)
    | none =>
      if strTruthy spec.node then
        match alget env.nodes (spec.node.getD "") with
        | none => .error "references unknown node"
        | some node => getOrCreateInterface node st spec netName defaultModel
      else
        .error "Interface spec must have node, switch, or facility_port field"

/-!
## Network compilation (`_build_and_submit_slice`, networks loop)
-/

/-- `_get_iface_site` (the closure in `_build_and_submit_slice`; note it
dispatches on `node` first, unlike `_resolve_interface`). -/
def getIfaceSite (env : Env) (spec : IfaceSpec) : Except String String :=
  match spec.node with
  | some n =>
    match alget env.nodes n with
    | none => .error "references unknown node"
    | some node => .ok node.site
  | none =>
    match spec.switch with
    | some sw =>
      match alget env.switches sw with
      | none => .error "references unknown switch"
      | some info => .ok info.site
    | none =>
      match spec.facility_port with
      | some fp =>
        match alget env.facilityPorts fp with
        | none => .error "references unknown facility port"
        | some info => .ok info.site
      | none => .error "Interface spec must have node, switch, or facility_port"

/-- A network specification (`net_spec` dict); `ero = []` models both an
absent and an empty hop list. -/
structure NetSpec where
  name : String
  type : Option String := none
  bandwidth : Option Int := none
  nic : Option String := none
  nic_model : Option String := none
  ero : List String := []
  nodes : List String := []
  interfaces : List IfaceSpec := []
deriving Repr, DecidableEq

/-- One backend network-creation call (`add_l3network` / `add_l2network`),
together with the endpoint specs it was created from and any route
hops / bandwidth set on it afterwards. -/
structure CreatedNet where
  name : String
  serviceType : String
  isL3 : Bool
  specs : List IfaceSpec
  ifaces : List Iface
  eroHops : List String := []
  bw : Option Int := none
deriving Repr, DecidableEq

/-- Python truthiness of an optional int. -/
def intTruthy : Option Int → Bool
  | none => false
  | some b => b != 0

/-- The endpoint-spec list of a network: the `nodes` shorthand is expanded
to interface specs when `interfaces` is not given. -/
def netInterfaceSpecs (net : NetSpec) : List IfaceSpec :=
  if ¬ net.nodes.isEmpty ∧ net.interfaces.isEmpty then
    net.nodes.map (fun n => { node := some n })
  else net.interfaces

/-- Per-endpoint site computation (`_get_iface_site` applied to every
endpoint spec, as the set comprehension and the fan-out loop both do). -/
def sitePairs (env : Env) : List IfaceSpec → Except String (List (String × IfaceSpec))
  | [] => .ok []
  | i :: rest =>
    match getIfaceSite env i with
    | .error e => .error e
    | .ok s =>
      match sitePairs env rest with
      | .error e => .error e
      | .ok tail => .ok ((s, i) :: tail)

/-- Resolve a list of endpoint specs in order, threading the allocation
state (the per-network `interfaces` accumulation loops). -/
def resolveSpecs (env : Env) (netName defaultModel : String) :
    AllocState → List IfaceSpec → Except String (List Iface × AllocState)
  | st, [] => .ok ([], st)
  | st, spec :: rest =>
    match resolveInterface env st spec netName defaultModel with
    | .error e => .error e
    | .ok (ifc, st') =>
      match resolveSpecs env netName defaultModel st' rest with
      | .error e => .error e
      | .ok (ifcs, st'') => .ok (ifc :: ifcs, st'')

/-- `specs_by_site.setdefault(site, []).append(spec)`: append under an
existing key, else push a new key at the end (dict insertion order). -/
def addToGroup {α : Type} :
    List (String × List α) → String → α → List (String × List α)
  | [], k, x => [(k, [x])]
  | (k', l) :: rest, k, x =>
    if k' = k then (k', l ++ [x]) :: rest
    else (k', l) :: addToGroup rest k x

/-- The grouping loop of the fan-out branch. -/
def groupPairs {α : Type} (ps : List (String × α)) : List (String × List α) :=
  ps.foldl (fun gs p => addToGroup gs p.1 p.2) []

/-- First occurrences of a string list, excluding `seen` (the key order of
a Python dict built by insertion). -/
def dedupFirstGo : List String → List String → List String
  | _, [] => []
  | seen, s :: rest =>
    if s ∈ seen then dedupFirstGo seen rest
    else s :: dedupFirstGo (seen ++ [s]) rest

/-- First occurrences of a string list. -/
def dedupFirst (l : List String) : List String :=
  dedupFirstGo [] l

/-- The per-site network creation loop of the fan-out branch. -/
def buildSiteNets (env : Env) (netName l3type defaultModel : String) :
    AllocState → List (String × List IfaceSpec) →
    Except String (List CreatedNet × AllocState)
  | st, [] => .ok ([], st)
  | st, (site, siteSpecs) :: rest =>
    match resolveSpecs env netName defaultModel st siteSpecs with
    | .error e => .error e
    | .ok (ifaces, st') =>
      match buildSiteNets env netName l3type defaultModel st' rest with
      | .error e => .error e
      | .ok (nets, st'') =>
        .ok ({ name := netName ++ "-" ++ site, serviceType := l3type,
               isL3 := true, specs := siteSpecs, ifaces := ifaces } :: nets,
             st'')

/-- The per-network body of the networks loop in `_build_and_submit_slice`:
endpoint-spec expansion, arity check, site collection, type resolution,
NIC-model selection, and either the multi-site FABNet fan-out or a single
network creation (with ERO hops and bandwidth applied to L2PTP).
`iface.set_mode` (local-mode only) and logging are not modelled. -/
def compileNetwork (env : Env) (st : AllocState) (net : NetSpec) :
    Except String (List CreatedNet × AllocState) :=
  let interfaceSpecs := netInterfaceSpecs net
  if interfaceSpecs.length < 2 then
    .error "must connect at least 2 nodes/interfaces"
  else
    match sitePairs env interfaceSpecs with
    | .error e => .error e
    | .ok pairs =>
      let netSites := (pairs.map Prod.fst).toFinset
      match determineNetworkType net.type netSites net.ero with
      | .error e => .error e
      | .ok netType =>
        let userNic := if strTruthy net.nic then net.nic else net.nic_model
        let nicRes : Except String String :=
          if strTruthy userNic then
            if (userNic.getD "") ∈ VALID_NIC_MODELS then .ok (userNic.getD "")
            else .error "Invalid NIC model"
          else .ok (selectNicForNetwork netType net.bandwidth)
        match nicRes with
        | .error e => .error e
        | .ok nicModel =>
          if netType ∈ fabnetTypes ∧ 1 < netSites.card then
            buildSiteNets env net.name ((alget L3_TYPE_MAP netType).getD "")
              nicModel st (groupPairs pairs)
          else
            match resolveSpecs env net.name nicModel st interfaceSpecs with
            | .error e => .error e
            | .ok (ifaces, st') =>
              if netType ∈ VALID_L3_NETWORK_TYPES then
                .ok ([{ name := net.name,
                        serviceType := (alget L3_TYPE_MAP netType).getD "",
                        isL3 := true, specs := interfaceSpecs,
                        ifaces := ifaces }], st')
              else
                .ok ([{ name := net.name, serviceType := netType,
                        isL3 := false, specs := interfaceSpecs,
                        ifaces := ifaces,
                        eroHops := if net.ero ≠ [] ∧ netType = "L2PTP"
                                   then net.ero else [],
                        bw := if intTruthy net.bandwidth ∧ netType = "L2PTP"
                              then net.bandwidth else none }], st')

/-!
## Concrete instances used by counterexamples and witnesses
-/

/-- A capacious test site `X`. -/
def siteX : SiteInfo :=
  { name := "X", cores_available := 100, ram_available := 100, disk_available := 100 }

/-- A capacious test site `Y`. -/
def siteY : SiteInfo :=
  { name := "Y", cores_available := 100, ram_available := 100, disk_available := 100 }

/-- A choice oracle that picks the first candidate (one possible behaviour
of `random.choice`). -/
def pickHead : List SiteInfo → SiteInfo :=
  fun l => l.headD { name := "Z" }

/-- A choice oracle that picks the last candidate (another possible
behaviour of `random.choice`). -/
def pickLast : List SiteInfo → SiteInfo :=
  fun l => l.getLast?.getD { name := "Z" }

/-- A node with no explicit site (auto-selection). -/
def nodeAuto : NodeSpec := { name := "n1" }

/-- A node pinned to site `X`. -/
def nodePinned : NodeSpec := { name := "n1", site := some "X" }

/-- The environment of the two-node scenario of claim C1:
node `a` at site `X`, node `b` at site `Y`. -/
def envAB : Env :=
  { nodes := [("a", { name := "a", site := "X" }),
              ("b", { name := "b", site := "Y" })] }

/-- The fresh allocation state for `envAB`. -/
def stAB : AllocState := { nodeNics := [("a", []), ("b", [])] }

/-- The network `net1` of the C1 scenario: type `FABNetv4`, node shorthand
`["a", "b"]`. -/
def netAB : NetSpec := { name := "net1", type := some "FABNetv4", nodes := ["a", "b"] }

/-- A test node for the NIC-idempotence witness. -/
def node1 : NodeInfo := { name := "n1", site := "X" }

/-- A fresh allocation state for `node1`. -/
def st1 : AllocState := { nodeNics := [("n1", [])] }

/-- An interface spec naming `(n1, nic1)` explicitly. -/
def spec1 : IfaceSpec := { node := some "n1", nic := some "nic1" }

/-- The allocation state after the first resolution of `spec1` on `node1`. -/
def st1b : AllocState :=
  { nodeNics := [("n1", [("nic1", { id := 0, model := "NIC_Basic" })])], nextId := 1 }

/-- The per-endpoint site pairs of the C1 scenario. -/
def pairsAB : List (String × IfaceSpec) :=
  [("X", { node := some "a" }), ("Y", { node := some "b" })]

/-- The networks the compiler creates in the C1 scenario. -/
def netsAB : List CreatedNet :=
  [{ name := "net1-X", serviceType := "IPv4", isL3 := true,
     specs := [{ node := some "a" }],
     ifaces := [.comp { id := 0, model := "NIC_Basic" } 0] },
   { name := "net1-Y", serviceType := "IPv4", isL3 := true,
     specs := [{ node := some "b" }],
     ifaces := [.comp { id := 1, model := "NIC_Basic" } 0] }]

/-- The allocation state after compiling the C1 scenario network. -/
def stABfinal : AllocState :=
  { nodeNics := [("a", [("a-net1-nic", { id := 0, model := "NIC_Basic" })]),
                 ("b", [("b-net1-nic", { id := 1, model := "NIC_Basic" })])],
    nextId := 2 }

/-- A regex oracle used to instantiate witnesses (any oracle works for the
theorems quantifying over `RegexOracle`). -/
def rsNone : RegexOracle := fun _ _ => .ok false

/-!
## Theorems
-/

/-- **C8** For every call of the network-type resolver with no requested
type and no explicit route hops, resolution returns `L2Bridge` exactly when
the endpoints span at most one site, and `FABNetv4` otherwise. -/
theorem default_type_resolution (sites : Finset String) :
    determineNetworkType none sites [] =
      .ok (if sites.card ≤ 1 then "L2Bridge" else "FABNetv4") := by
  simp [determineNetworkType]

/-- **C7** For every call of the network-type resolver with requested type
`"L2PTP"` and no explicit route hops: at most one endpoint site fails, and
more than one site resolves to `L2STS` (never `L2PTP`). -/
theorem l2ptp_without_ero (sites : Finset String) :
    determineNetworkType (some "L2PTP") sites [] =
      if sites.card ≤ 1 then
        .error "L2PTP requires a multi-site (2-site) network."
      else
        .ok "L2STS" := by
  have hup : strUpper "L2PTP" ≠ "L2" := by decide
  simp [determineNetworkType, hup]

/-- **C2 counterexample** With a non-empty hop list and *three* distinct
endpoint sites the resolver does not fail (as the claim requires for any
site count other than 2): it returns `L2PTP`. -/
theorem ero_three_sites_returns_l2ptp :
    (({"A", "B", "C"} : Finset String).card = 3) ∧
      determineNetworkType (some "L2STS") {"A", "B", "C"} ["W"] =
        .ok "L2PTP" := by
  constructor
  · decide
  · simp [determineNetworkType]

/-- **C2 (amended)** With a non-empty explicit-route-hop list: resolution
fails when the endpoints span at most one site, and returns `L2PTP`
whenever they span more than one site (not only exactly two), regardless of
the requested type. -/
theorem ero_forces_l2ptp (requested : Option String) (sites : Finset String)
    (ero : List String) (h : ero ≠ []) :
    determineNetworkType requested sites ero =
      if sites.card ≤ 1 then
        .error "ERO (Explicit Route Option) requires a multi-site (2-site) network."
      else
        .ok "L2PTP" := by
  simp [determineNetworkType, h]

/-- Witness for `ero_forces_l2ptp` at a concrete input. -/
theorem ero_forces_l2ptp_witness :
    determineNetworkType (some "FABNetv6") {"U", "V"} ["W", "S"] =
      .ok "L2PTP" := by
  rw [ero_forces_l2ptp (some "FABNetv6") {"U", "V"} ["W", "S"] (by decide),
    if_neg (by decide)]

/-- **C3 counterexample** For an auto-selected NIC on an `L2PTP` network
with no bandwidth given, the code returns the default SmartNIC
`NIC_ConnectX_6`, not the basic NIC the claim prescribes. -/
theorem l2ptp_default_nic_not_basic :
    selectNicForNetwork "L2PTP" none = "NIC_ConnectX_6" ∧
      "NIC_ConnectX_6" ≠ "NIC_Basic" := by
  constructor
  · rfl
  · decide

/-- **C3 (amended)** Auto NIC selection is tiered by bandwidth for `L2PTP`
(≥400 → `NIC_ConnectX_7_400`, ≥100 → `NIC_ConnectX_6`, ≥25 →
`NIC_ConnectX_5`), with the *default SmartNIC* `NIC_ConnectX_6` (not the
basic NIC) when the bandwidth is absent, zero, or below 25; every other
resolved type always uses `NIC_Basic`. -/
theorem nic_selection_matches_amended_spec (netType : String)
    (bandwidth : Option Int) :
    selectNicForNetwork netType bandwidth =
      nicModelAmendedSpec netType bandwidth := by
  cases bandwidth with
  | none => simp [selectNicForNetwork, nicModelAmendedSpec, bwTruthyGe, DEFAULT_SMARTNIC]
  | some b =>
    simp only [selectNicForNetwork, nicModelAmendedSpec, bwTruthyGe, DEFAULT_SMARTNIC]
    split_ifs <;> simp_all

/-- **C4 (code bug)** `apply_sort` promises (docstring and inline comment)
that records missing the sort field are placed last regardless of
direction, but under `direction = "desc"` the `reverse=True` flip also
reverses the missing-value flag: the record without field `"x"` comes
*first*. -/
theorem sort_desc_places_missing_first :
    applySort [[("x", Value.int 1)], [("y", Value.int 2)]]
      (some [("field", .str "x"), ("direction", .str "desc")]) =
      [[("y", Value.int 2)], [("x", Value.int 1)]] := by
  rfl

/-- **C5 counterexample** For `limit = 0` the claimed count formula
`min(limit or len(items), max(0, len(items)-offset))` evaluates to 1 on a
one-element list (Python `0 or n` is `n`), but `paginate` returns 0 items. -/
theorem paginate_limit_zero_breaks_claim_formula :
    ((paginate ([42] : List Nat) (some 0) 0).count : Int) ≠
      paginateClaimCount 1 (some 0) 0 := by
  decide

/-- **C5 (amended)** The returned count equals
`min(limit-clamped-to-0-if-present-else-total, total - clamped-offset)` and
`has_more` equals `clamped-offset + count < total` (with the *effective*
clamped offset, not the raw one). -/
theorem paginate_count_and_has_more {α : Type} (items : List α)
    (limit : Option Int) (offset : Int) :
    (paginate items limit offset).count =
      min (match limit with
           | none => items.length
           | some l => (max 0 l).toNat)
        (items.length - (max 0 offset).toNat) ∧
    (paginate items limit offset).has_more =
      decide ((max 0 offset).toNat + (paginate items limit offset).count <
        items.length) := by
  cases limit with
  | none => simp [paginate]
  | some l => simp [paginate, Nat.min_comm]

/-- **C6 counterexample** Two runs of the compiler on the same input can
assign different sites to an auto-placed node: both `pickHead` and
`pickLast` are legitimate behaviours of `random.choice` (they return a
member of the candidate list), yet they yield different assignments. -/
theorem auto_site_selection_depends_on_random_choice :
    pickHead [siteX, siteY] ∈ [siteX, siteY] ∧
    pickLast [siteX, siteY] ∈ [siteX, siteY] ∧
    assignSites [siteX, siteY] pickHead [nodeAuto] ≠
      assignSites [siteX, siteY] pickLast [nodeAuto] := by
  refine ⟨by decide, by decide, by decide⟩

/-- **C6 (amended)** Site assignment (and hence the compile pass) is
deterministic for topologies in which every node carries an explicit
non-empty site: the result does not depend on the random choice oracle. -/
theorem assignment_deterministic_with_explicit_sites
    (availableSites : List SiteInfo) (pick1 pick2 : List SiteInfo → SiteInfo)
    (nodes : List NodeSpec) (h : ∀ n ∈ nodes, strTruthy n.site) :
    assignSites availableSites pick1 nodes =
      assignSites availableSites pick2 nodes := by
  unfold assignSites
  suffices hgo : ∀ (ns : List NodeSpec) (used : List String),
      (∀ n ∈ ns, strTruthy n.site) →
      assignSitesGo availableSites pick1 ns used =
        assignSitesGo availableSites pick2 ns used from
    hgo nodes [] h
  intro ns
  induction ns with
  | nil => intro used _; rfl
  | cons n rest ih =>
    intro used hall
    have hn : strTruthy n.site := hall n (by simp)
    have hrest : ∀ m ∈ rest, strTruthy m.site := fun m hm => hall m (by simp [hm])
    simp only [assignSitesGo, hn, if_pos]
    rw [ih (used ++ [n.site.getD ""]) hrest]

/-- Witness for `assignment_deterministic_with_explicit_sites` at a
concrete input. -/
theorem assignment_deterministic_with_explicit_sites_witness :
    assignSites [siteX, siteY] pickHead [nodePinned] =
      assignSites [siteX, siteY] pickLast [nodePinned] :=
  assignment_deterministic_with_explicit_sites [siteX, siteY] pickHead pickLast
    [nodePinned] (by decide)

/-- Unfolding lemma: the empty filter matches. -/
theorem mrf_nil (rs : RegexOracle) (r : Record) :
    matchRecordFilters rs r [] = .ok true := by
  simp only [matchRecordFilters]

/-- Unfolding lemma: an `"or"` clause with a non-empty list. -/
theorem mrf_or_cons (rs : RegexOracle) (r : Record) (sub : Value)
    (subs : List Value) (rest : List (String × Value)) :
    matchRecordFilters rs r (("or", .list (sub :: subs)) :: rest) =
      match matchOrList rs r (sub :: subs) with
      | .error e => .error e
      | .ok b => if b then matchRecordFilters rs r rest else .ok false := by
  simp only [matchRecordFilters, if_true]

/-- Unfolding lemma: the OR disjunction over a dict-headed list. -/
theorem morl_cons (rs : RegexOracle) (r : Record) (kvs : List (String × Value))
    (more : List Value) :
    matchOrList rs r (.dict kvs :: more) =
      match matchRecordFilters rs r kvs with
      | .error e => .error e
      | .ok b => if b then .ok true else matchOrList rs r more := by
  simp only [matchOrList]

/-- Unfolding lemma: the OR disjunction over no sub-filters. -/
theorem morl_nil (rs : RegexOracle) (r : Record) :
    matchOrList rs r [] = .ok false := by
  simp only [matchOrList]

/-- OR distributes over the two sub-filters (when both evaluate). -/
theorem or_clause_matches (rs : RegexOracle) (r : Record)
    (A B : List (String × Value)) (a b : Bool)
    (hA : matchRecordFilters rs r A = .ok a)
    (hB : matchRecordFilters rs r B = .ok b) :
    matchRecordFilters rs r [("or", .list [.dict A, .dict B])] = .ok (a || b) := by
  cases a <;> cases b <;>
    simp [mrf_or_cons, morl_cons, morl_nil, hA, hB, mrf_nil]

/-- A non-list or empty `"or"` value is skipped. -/
theorem or_clause_skip (rs : RegexOracle) (r : Record) (v : Value)
    (hv : (∀ l, v ≠ .list l) ∨ v = .list []) :
    matchRecordFilters rs r [("or", v)] = .ok true := by
  rcases hv with hv | hv
  · cases v with
    | list l => exact absurd rfl (hv l)
    | null => simp only [matchRecordFilters, if_true]
    | bool b => simp only [matchRecordFilters, if_true]
    | int n => simp only [matchRecordFilters, if_true]
    | str s => simp only [matchRecordFilters, if_true]
    | dict d => simp only [matchRecordFilters, if_true]
  · subst hv
    simp only [matchRecordFilters, if_true]

/-- **C10** Filter OR: a record matches the filter whose single clause is
the key "or" bound to the list [A, B] iff it matches A or matches B (when
both sub-evaluations return a result), and a clause whose "or" value is not
a list or is an empty list is silently skipped (treated as satisfied), so a
filter consisting only of such a clause matches every record. -/
theorem filter_or_semantics :
    (∀ (rs : RegexOracle) (r : Record) (A B : List (String × Value)) (a b : Bool),
        matchRecordFilters rs r A = .ok a → matchRecordFilters rs r B = .ok b →
        matchRecordFilters rs r [("or", .list [.dict A, .dict B])] = .ok (a || b))
    ∧ (∀ (rs : RegexOracle) (r : Record) (v : Value),
        ((∀ l, v ≠ .list l) ∨ v = .list []) →
        matchRecordFilters rs r [("or", v)] = .ok true) :=
  ⟨or_clause_matches, or_clause_skip⟩

/-- Witness for `filter_or_semantics` at concrete inputs: an OR of a
matching and a non-matching sub-filter matches, and an `"or"` clause bound
to a plain string is skipped. -/
theorem filter_or_semantics_witness :
    matchRecordFilters rsNone [("k", Value.int 1)]
        [("or", .list [.dict [("k", Value.int 1)], .dict [("k", Value.int 2)]])]
      = .ok true
    ∧ matchRecordFilters rsNone [("k", Value.int 1)] [("or", Value.str "junk")]
      = .ok true := by
  have hA : matchRecordFilters rsNone [("k", Value.int 1)] [("k", Value.int 1)]
      = .ok true := by
    simp [matchRecordFilters, resolveField, splitDots, splitDotsGo,
      resolveFieldGo, alget, valueEq, mrf_nil]
  have hB : matchRecordFilters rsNone [("k", Value.int 1)] [("k", Value.int 2)]
      = .ok false := by
    simp [matchRecordFilters, resolveField, splitDots, splitDotsGo,
      resolveFieldGo, alget, valueEq, mrf_nil]
  constructor
  · simpa using filter_or_semantics.1 rsNone [("k", Value.int 1)]
      [("k", Value.int 1)] [("k", Value.int 2)] true false hA hB
  · exact filter_or_semantics.2 rsNone [("k", Value.int 1)] (Value.str "junk")
      (Or.inl (fun l h => by cases h))

/-- Lookup after `node_nics[node][nm] = c`: the node's NIC map gains the
binding at the end. -/
theorem alget_upsert_self (l : List (String × List (String × NicComp)))
    (node nm : String) (c : NicComp) :
    alget (upsertNic l node nm c) node = some ((alget l node).getD [] ++ [(nm, c)]) := by
  induction l with
  | nil => simp [upsertNic, alget]
  | cons p rest ih =>
    obtain ⟨n, nics⟩ := p
    by_cases h : n = node
    · subst h; simp [upsertNic, alget]
    · simp [upsertNic, alget, h, ih]

/-- Appending a fresh binding makes it retrievable. -/
theorem alget_append_of_none {α : Type} (l : List (String × α)) (k : String) (v : α)
    (h : alget l k = none) : alget (l ++ [(k, v)]) k = some v := by
  induction l with
  | nil => simp [alget]
  | cons p rest ih =>
    obtain ⟨k', v'⟩ := p
    by_cases hk : k' = k
    · subst hk; simp [alget] at h
    · simp [alget, hk] at h ⊢
      exact ih h

/-- **C9** NIC resolution is idempotent within one compile pass: when the
first resolution of an interface spec with an explicitly given NIC name
created and registered a NIC (the name was neither tracked in the
allocation state nor an existing component of the node), resolving the same
spec again returns the identical interface over the identical NIC component
and leaves the allocation state unchanged — no second NIC is created. -/
theorem nic_resolution_idempotent
    (node : NodeInfo) (st : AllocState) (spec : IfaceSpec)
    (netName defaultModel : String) (nm : String) (ifc : Iface) (st' : AllocState)
    (hcomp : ¬ strTruthy spec.component)
    (hnm : (if strTruthy spec.nic then spec.nic else spec.nic_name) = some nm)
    (hnmT : nm ≠ "")
    (hfresh1 : alget (nicsOf st node.name) nm = none)
    (hfresh2 : alget node.existing nm = none)
    (hrun : getOrCreateInterface node st spec netName defaultModel = .ok (ifc, st')) :
    getOrCreateInterface node st' spec netName defaultModel = .ok (ifc, st') := by
  have hT : strTruthy (some nm) = true := by simp [strTruthy, hnmT]
  simp [getOrCreateInterface, hnm, hT, hfresh1, hfresh2, hcomp] at hrun
  generalize hM : (if strTruthy spec.nic_model = true then spec.nic_model.getD ""
      else if strTruthy spec.model = true then spec.model.getD "" else defaultModel) = M at hrun
  have hlook : alget (nicsOf
      { nodeNics := (registerNic st node.name nm ⟨st.nextId, M⟩).nodeNics,
        nextId := st.nextId + 1 } node.name) nm = some ⟨st.nextId, M⟩ := by
    simp only [nicsOf, registerNic, alget_upsert_self, Option.getD_some]
    exact alget_append_of_none _ _ _ hfresh1
  split_ifs at hrun with hport hvlan
  all_goals
    rw [Except.ok.injEq, Prod.mk.injEq] at hrun
    obtain ⟨hifc, hst⟩ := hrun
    subst hifc
    subst hst
    simp [getOrCreateInterface, hnm, hT, hcomp, hlook, hM, hport, hvlan]

/-- Witness for `nic_resolution_idempotent` at a concrete input: after
`nic1` was created on `n1` (state `st1b`), resolving the same spec again
returns the same NIC component and does not change the state. -/
theorem nic_resolution_idempotent_witness :
    getOrCreateInterface node1 st1b spec1 "net" "NIC_Basic"
      = .ok (.comp { id := 0, model := "NIC_Basic" } 0, st1b) :=
  nic_resolution_idempotent node1 st1 spec1 "net" "NIC_Basic" "nic1"
    (.comp { id := 0, model := "NIC_Basic" } 0) st1b
    (by decide) (by decide) (by decide) (by decide) (by decide) (by decide)

/-- Appending under a fresh key pushes a new singleton group at the end. -/
theorem addToGroup_of_not_mem {α : Type} (gs : List (String × List α)) (k : String) (x : α)
    (h : k ∉ gs.map Prod.fst) : addToGroup gs k x = gs ++ [(k, [x])] := by
  induction gs with
  | nil => simp [addToGroup]
  | cons p rest ih =>
    obtain ⟨k', l⟩ := p
    simp only [List.map_cons, List.mem_cons, not_or] at h
    obtain ⟨h1, h2⟩ := h
    have h1' : ¬ k' = k := fun hh => h1 hh.symm
    simp [addToGroup, h1', ih h2]

/-- Appending under an existing key (keys distinct) extends that group. -/
theorem addToGroup_of_mem_nodup {α : Type} (gs : List (String × List α)) (k : String) (x : α)
    (hnd : (gs.map Prod.fst).Nodup) (h : k ∈ gs.map Prod.fst) :
    addToGroup gs k x = gs.map (fun kl => if kl.1 = k then (kl.1, kl.2 ++ [x]) else kl) := by
  induction gs with
  | nil => simp at h
  | cons p rest ih =>
    obtain ⟨k', l⟩ := p
    simp only [List.map_cons, List.nodup_cons] at hnd
    obtain ⟨hk', hndr⟩ := hnd
    by_cases hk : k' = k
    · subst hk
      have hrest : ∀ kl ∈ rest, (if kl.1 = k' then (kl.1, kl.2 ++ [x]) else kl) = kl := by
        intro kl hkl
        have hne : kl.1 ≠ k' := by
          intro he
          exact hk' (he ▸ List.mem_map_of_mem Prod.fst hkl)
        simp [hne]
      simp only [addToGroup, if_pos rfl, List.map_cons, if_pos rfl]
      rw [List.map_congr_left hrest]
      simp
    · have hmem : k ∈ rest.map Prod.fst := by
        rcases List.mem_cons.mp h with h1 | h1
        · exact absurd h1.symm hk
        · exact h1
      simp [addToGroup, hk, ih hndr hmem]

/-- A key produced by `dedupFirstGo` was not in the seen set. -/
theorem mem_dedupFirstGo_not_seen (l : List String) :
    ∀ (seen : List String) (k : String), k ∈ dedupFirstGo seen l → k ∉ seen := by
  induction l with
  | nil => intro seen k h; simp [dedupFirstGo] at h
  | cons s rest ih =>
    intro seen k h
    simp only [dedupFirstGo] at h
    by_cases hs : s ∈ seen
    · rw [if_pos hs] at h
      exact ih seen k h
    · rw [if_neg hs] at h
      rcases List.mem_cons.mp h with h1 | h1
      · subst h1; exact hs
      · intro hk
        exact ih (seen ++ [s]) k h1 (List.mem_append_left _ hk)

/-- The grouping fold produces, after any distinct-keyed accumulator, one
group per first key occurrence holding exactly the matching values. -/
theorem foldl_addToGroup {α : Type} (ps : List (String × α)) :
    ∀ (gs : List (String × List α)), (gs.map Prod.fst).Nodup →
    ps.foldl (fun acc p => addToGroup acc p.1 p.2) gs
      = gs.map (fun kl => (kl.1, kl.2 ++ (ps.filter (fun p => p.1 = kl.1)).map Prod.snd))
        ++ (dedupFirstGo (gs.map Prod.fst) (ps.map Prod.fst)).map
            (fun k => (k, (ps.filter (fun p => p.1 = k)).map Prod.snd)) := by
  induction ps with
  | nil =>
    intro gs hnd
    simp [dedupFirstGo]
  | cons p rest ih =>
    intro gs hnd
    rw [List.foldl_cons]
    by_cases hmem : p.1 ∈ gs.map Prod.fst
    · rw [addToGroup_of_mem_nodup gs p.1 p.2 hnd hmem]
      have hkeys : (List.map Prod.fst (gs.map (fun kl =>
          if kl.1 = p.1 then (kl.1, kl.2 ++ [p.2]) else kl))) = gs.map Prod.fst := by
        rw [List.map_map]
        apply List.map_congr_left
        intro kl _
        by_cases h : kl.1 = p.1 <;> simp [h]
      rw [ih _ (by rw [hkeys]; exact hnd)]
      rw [hkeys]
      congr 1
      · rw [List.map_map]
        apply List.map_congr_left
        intro kl _
        by_cases h : kl.1 = p.1
        · simp [h, List.filter_cons, List.append_assoc]
        · have h' : ¬ p.1 = kl.1 := fun hh => h hh.symm
          simp [h, List.filter_cons, h']
      · have hseen : dedupFirstGo (gs.map Prod.fst) ((p :: rest).map Prod.fst)
            = dedupFirstGo (gs.map Prod.fst) (rest.map Prod.fst) := by
          simp [dedupFirstGo, hmem]
        rw [hseen]
        apply List.map_congr_left
        intro k hk
        have hk' : k ∉ gs.map Prod.fst := mem_dedupFirstGo_not_seen _ _ _ hk
        have hne : ¬ p.1 = k := fun hh => hk' (hh ▸ hmem)
        simp [List.filter_cons, hne]
    · rw [addToGroup_of_not_mem gs p.1 p.2 hmem]
      have hkeys : (gs ++ [(p.1, [p.2])]).map Prod.fst = gs.map Prod.fst ++ [p.1] := by
        simp
      have hnd' : ((gs ++ [(p.1, [p.2])]).map Prod.fst).Nodup := by
        rw [hkeys]
        simp [List.nodup_append, hmem, hnd]
      rw [ih _ hnd', hkeys]
      have hdd : dedupFirstGo (gs.map Prod.fst) ((p :: rest).map Prod.fst)
          = p.1 :: dedupFirstGo (gs.map Prod.fst ++ [p.1]) (rest.map Prod.fst) := by
        simp [dedupFirstGo, hmem]
      rw [hdd]
      simp only [List.map_append, List.map_cons, List.append_assoc]
      congr 1
      · apply List.map_congr_left
        intro kl hkl
        have hne : kl.1 ≠ p.1 := by
          intro he
          exact hmem (he ▸ List.mem_map_of_mem Prod.fst hkl)
        have hne' : ¬ p.1 = kl.1 := fun hh => hne hh.symm
        simp [List.filter_cons, hne']
      · simp only [List.map_nil, List.nil_append, List.singleton_append]
        congr 1
        · simp [List.filter_cons]
        · apply List.map_congr_left
          intro k hk
          have hk' : k ∉ gs.map Prod.fst ++ [p.1] := mem_dedupFirstGo_not_seen _ _ _ hk
          have hne : ¬ p.1 = k := by
            intro hh
            exact hk' (hh ▸ List.mem_append_right _ (by simp))
          simp [List.filter_cons, hne]

/-- The grouping loop groups by key: one group per distinct key in
first-occurrence order, each holding exactly the values filtered by key. -/
theorem groupPairs_eq {α : Type} (ps : List (String × α)) :
    groupPairs ps
      = (dedupFirst (ps.map Prod.fst)).map
          (fun k => (k, (ps.filter (fun p => p.1 = k)).map Prod.snd)) := by
  rw [groupPairs, foldl_addToGroup ps [] (by simp), dedupFirst]
  simp

/-- Successful endpoint resolution yields one interface per endpoint spec. -/
theorem resolveSpecs_length (env : Env) (netName defaultModel : String) :
    ∀ (specs : List IfaceSpec) (st : AllocState) (ifaces : List Iface) (st' : AllocState),
    resolveSpecs env netName defaultModel st specs = .ok (ifaces, st') →
    ifaces.length = specs.length := by
  intro specs
  induction specs with
  | nil =>
    intro st ifaces st' h
    simp only [resolveSpecs, Except.ok.injEq, Prod.mk.injEq] at h
    rw [← h.1]
    rfl
  | cons s rest ih =>
    intro st ifaces st' h
    cases hri : resolveInterface env st s netName defaultModel with
    | error e =>
      simp only [resolveSpecs, hri] at h
      exact Except.noConfusion h
    | ok pr =>
      obtain ⟨ifc, st1⟩ := pr
      cases hrs : resolveSpecs env netName defaultModel st1 rest with
      | error e =>
        simp only [resolveSpecs, hri, hrs] at h
        exact Except.noConfusion h
      | ok pr2 =>
        obtain ⟨ifcs, st2⟩ := pr2
        simp only [resolveSpecs, hri, hrs, Except.ok.injEq, Prod.mk.injEq] at h
        rw [← h.1]
        simp [ih _ _ _ hrs]

/-- The per-site creation loop creates one L3 network per group, named by
suffixing the site, holding exactly that group's endpoint specs. -/
theorem buildSiteNets_ok (env : Env) (nm l3 dm : String) :
    ∀ (gs : List (String × List IfaceSpec)) (st : AllocState)
      (nets : List CreatedNet) (st' : AllocState),
    buildSiteNets env nm l3 dm st gs = .ok (nets, st') →
    nets.map (fun n => n.name) = gs.map (fun g => nm ++ "-" ++ g.1)
    ∧ nets.map (fun n => n.specs) = gs.map (fun g => g.2)
    ∧ ∀ n ∈ nets, n.isL3 = true ∧ n.serviceType = l3
        ∧ n.ifaces.length = n.specs.length := by
  intro gs
  induction gs with
  | nil =>
    intro st nets st' h
    simp only [buildSiteNets, Except.ok.injEq, Prod.mk.injEq] at h
    rw [← h.1]
    simp
  | cons g rest ih =>
    intro st nets st' h
    obtain ⟨site, siteSpecs⟩ := g
    cases hrs : resolveSpecs env nm dm st siteSpecs with
    | error e =>
      simp only [buildSiteNets, hrs] at h
      exact Except.noConfusion h
    | ok pr =>
      obtain ⟨ifaces, st1⟩ := pr
      cases hbn : buildSiteNets env nm l3 dm st1 rest with
      | error e =>
        simp only [buildSiteNets, hrs, hbn] at h
        exact Except.noConfusion h
      | ok pr2 =>
        obtain ⟨nets1, st2⟩ := pr2
        simp only [buildSiteNets, hrs, hbn, Except.ok.injEq, Prod.mk.injEq] at h
        obtain ⟨hnets, hst⟩ := h
        obtain ⟨ih1, ih2, ih3⟩ := ih st1 nets1 st2 hbn
        rw [← hnets]
        refine ⟨by simp [ih1], by simp [ih2], ?_⟩
        intro n hn
        rcases List.mem_cons.mp hn with h1 | h1
        · subst h1
          refine ⟨rfl, rfl, ?_⟩
          simp [resolveSpecs_length env nm dm siteSpecs st ifaces st1 hrs]
        · exact ih3 n h1

/-- **C1** Fan-out of multi-site FABNet-family networks: when the resolved
type is a FABNet-family L3 type and the endpoints span more than one site,
the compiler creates one L3 network per distinct endpoint site (in
first-occurrence order), each named `name-site` and containing exactly the
endpoint specs located at that site (one resolved interface per spec). -/
theorem fabnet_multisite_fanout
    (env : Env) (st : AllocState) (net : NetSpec) (nets : List CreatedNet)
    (st2 : AllocState) (pairs : List (String × IfaceSpec)) (t : String)
    (hpairs : sitePairs env (netInterfaceSpecs net) = .ok pairs)
    (ht : determineNetworkType net.type (pairs.map Prod.fst).toFinset net.ero = .ok t)
    (hfab : t ∈ fabnetTypes)
    (hcard : 1 < (pairs.map Prod.fst).toFinset.card)
    (hrun : compileNetwork env st net = .ok (nets, st2)) :
    nets.map (fun n => n.name)
        = (dedupFirst (pairs.map Prod.fst)).map (fun s => net.name ++ "-" ++ s)
    ∧ nets.map (fun n => n.specs)
        = (dedupFirst (pairs.map Prod.fst)).map
            (fun s => (pairs.filter (fun p => p.1 = s)).map Prod.snd)
    ∧ ∀ n ∈ nets, n.isL3 = true ∧ n.ifaces.length = n.specs.length := by
  simp only [compileNetwork, hpairs, ht] at hrun
  split at hrun
  · exact Except.noConfusion hrun
  · split at hrun
    · exact Except.noConfusion hrun
    · rename_i nicModel heqNic
      rw [if_pos ⟨hfab, hcard⟩] at hrun
      obtain ⟨h1, h2, h3⟩ := buildSiteNets_ok env net.name _ nicModel (groupPairs pairs) st nets st2 hrun
      rw [groupPairs_eq] at h1 h2
      rw [List.map_map] at h1 h2
      refine ⟨?_, ?_, fun n hn => ⟨(h3 n hn).1, (h3 n hn).2.2⟩⟩
      · simpa using h1
      · simpa using h2

/-- Witness for `fabnet_multisite_fanout`: nodes `a@X`, `b@Y` joined by
`net1` of type FABNetv4 produce exactly the two networks `net1-X` and
`net1-Y`, each holding the single endpoint at that site. -/
theorem fabnet_multisite_fanout_witness :
    netsAB.map (fun n => n.name)
        = (dedupFirst (pairsAB.map Prod.fst)).map (fun s => netAB.name ++ "-" ++ s)
    ∧ netsAB.map (fun n => n.specs)
        = (dedupFirst (pairsAB.map Prod.fst)).map
            (fun s => (pairsAB.filter (fun p => p.1 = s)).map Prod.snd)
    ∧ ∀ n ∈ netsAB, n.isL3 = true ∧ n.ifaces.length = n.specs.length :=
  fabnet_multisite_fanout envAB stAB netAB netsAB stABfinal pairsAB "FABNetv4"
    (by decide) (by decide) (by decide) (by decide) (by decide)

end FabricMcp
